import Mathlib

/-!
Shallow embedding of the PortfolioBackend service (`main.py`): the Redis-backed
session store, the tool registry with its dispatch function, and the
`stream_openai_response` orchestrator that drives the two-phase tool-calling
protocol and emits the server-sent event sequence.

External collaborators (the Redis client, Python's `json.loads`, `eval`,
`datetime` parsing/formatting and the OpenAI client) are modelled as explicit
parameters: the store is an association list, clock reads are timestamp
parameters, and the LLM gateway is an oracle record describing the two
completion calls of one request.
-/

namespace PortfolioBackend

/-- A chat turn as stored in a session: the dict `{role, content, timestamp}`
built by `save_message`. -/
structure Message where
  role : String
  content : String
  timestamp : Nat
  deriving Repr, DecidableEq

/-- A session blob as serialized under `chat:session:<id>`:
`{session_id, created_at, last_activity, messages}`. -/
structure SessionData where
  session_id : String
  created_at : Nat
  last_activity : Nat
  messages : List Message
  deriving Repr, DecidableEq

/-- The Redis keyspace used by the session functions, modelled as an
association list from key to (already-parsed) session blob.  The JSON
round-trip through `json.dumps`/`json.loads` is the identity on these blobs
and is not modelled separately; TTLs are not modelled (no claim depends on
expiry). -/
abbrev Store := List (String × SessionData)

/-- The Redis key `f"chat:session:{session_id}"`. -/
def sessionKey (session_id : String) : String := "chat:session:" ++ session_id

/-- `redis_client.setex(k, ttl, v)`: overwrite the value stored under `k`. -/
def storeSet (st : Store) (k : String) (v : SessionData) : Store :=
  (k, v) :: st.filter (fun p => p.1 ≠ k)

/-- `create_session` (main.py:381): build a fresh session blob with empty
message list and both timestamps set to the current time, write it under
`chat:session:<id>`, and return the id.  The generated `uuid.uuid4()` and the
clock reads of the call are passed as parameters. -/
def create_session (st : Store) (session_id : String) (now : Nat) :
    Store × String :=
  let session_data : SessionData :=
    { session_id := session_id, created_at := now, last_activity := now
      messages := [] }
  (storeSet st (sessionKey session_id) session_data, session_id)

/-- `get_session` (main.py:402): read and parse the blob, `none` when the key
is absent (the `except` branch also returns `None`, which the lookup model
subsumes). -/
def get_session (st : Store) (session_id : String) : Option SessionData :=
  st.lookup (sessionKey session_id)

/-- `save_message` (main.py:416): fetch the session; if absent, return with no
write; otherwise append the new `{role, content, timestamp}` message, refresh
`last_activity`, truncate to the last 20 messages (`messages[-20:]`), and
write the blob back. -/
def save_message (st : Store) (session_id role content : String) (now : Nat) :
    Store :=
  match get_session st session_id with
  | none => st
  | some session_data =>
    let message : Message := { role := role, content := content, timestamp := now }
    let msgs := session_data.messages ++ [message]
    let msgs := if msgs.length > 20 then msgs.drop (msgs.length - 20) else msgs
    storeSet st (sessionKey session_id)
      { session_data with messages := msgs, last_activity := now }

/-- `get_chat_history` (main.py:449): the session's message list, `[]` when
the session is absent. -/
def get_chat_history (st : Store) (session_id : String) : List Message :=
  match get_session st session_id with
  | some session_data => session_data.messages
  | none => []

/-! ## Tool registry

The eight tool functions of `main.py`, their Python keyword-argument calling
convention, and `execute_tool`.  External library calls inside the bodies
(`datetime` formatting and parsing, Python `eval`, `json.loads`) are fields of
`PyEnv`. -/

/-- Keyword arguments of a tool call, as produced by
`json.loads(tool_call.function.arguments)`.  The repository's tool schemas
declare only string-typed parameters, so argument values are modelled as
strings. -/
abbrev Args := List (String × String)

/-- The external-world parameters of one request: the clock reads
(`int(time.time() * 1000)` and the `strftime` renderings), Python's `eval`
restricted to the filtered arithmetic expression, ISO-datetime parsing for
`create_reminder` (in-future flag plus the rendered time difference, or the
text of the raised exception), `json.loads` on tool-call argument strings, and
the `SYSTEM_PROMPT` loaded at startup. -/
structure PyEnv where
  nowMs : Nat
  nowFmt : String
  fmtTs : Nat → String
  pyEval : String → Except String String
  parseReminder : String → Except String (Bool × String)
  json_loads : String → Except String Args
  system_prompt : String

/-- `record_user_details` (main.py:247): fires a push notification
(side effect not modelled) and returns a fixed acknowledgement. -/
def record_user_details (_email _name _notes : String) : String :=
  "Interest recorded"

/-- `record_unknown_question` (main.py:252): fires a push notification
(side effect not modelled) and returns a fixed acknowledgement. -/
def record_unknown_question (_question : String) : String :=
  "Question recorded"

/-- `get_current_time` (main.py:257): formats `datetime.datetime.now()`. -/
def get_current_time (env : PyEnv) (timezone : String) : String :=
  "Current time (" ++ timezone ++ "): " ++ env.nowFmt

/-- `get_weather` (main.py:265): mock implementation, pure format string. -/
def get_weather (location : String) : String :=
  "Weather for " ++ location ++
    ": 72°F, Partly Cloudy (Mock data - replace with actual weather API)"

/-- Python's `str.isalnum()` for the ASCII range: a letter or a digit. -/
def pyIsAlnum (c : Char) : Bool := c.isAlpha || c.isDigit

/-- The character test of the filter in `calculate` (main.py:284):
`c.isalnum() or c in '+-*/.() '`. -/
def calc_allowed (c : Char) : Bool :=
  pyIsAlnum c || "+-*/.() ".data.contains c

/-- The filter in `calculate` (main.py:284):
`''.join(c for c in expression if c.isalnum() or c in '+-*/.() ')`. -/
def calc_filter (expression : String) : String :=
  String.mk (expression.data.filter calc_allowed)

/-- `calculate` (main.py:274): strip disallowed characters, then `eval` the
stripped expression with empty builtins; a raised exception becomes an error
string mentioning the (already stripped) expression. -/
def calculate (pyEval : String → Except String String) (expression : String) :
    String :=
  let expression := calc_filter expression
  match pyEval expression with
  | .ok result => "Result: " ++ expression ++ " = " ++ result
  | .error e => "Error calculating " ++ expression ++ ": " ++ e

/-- `web_search` (main.py:292): mock implementation, pure format string. -/
def web_search (query : String) : String :=
  "Search results for " ++ "'" ++ query ++ "'" ++
    ": (Mock data - replace with actual search API like Google Custom Search or DuckDuckGo)"

/-- `get_session_info` (main.py:300): fetch the session and render its
summary, or a not-found message. -/
def get_session_info (env : PyEnv) (st : Store) (session_id : String) :
    String :=
  match get_session st session_id with
  | some session_data =>
      "Session Info:\n- Message count: " ++
        toString session_data.messages.length ++
      "\n- Created: " ++ env.fmtTs session_data.created_at ++
      "\n- Last activity: " ++ env.fmtTs session_data.last_activity
  | none => "Session " ++ session_id ++ " not found"

/-- `create_reminder` (main.py:315): parse the ISO datetime (failure becomes
an error string) and report whether the reminder time is still ahead. -/
def create_reminder (env : PyEnv) (title datetime_str _description : String) :
    String :=
  match env.parseReminder datetime_str with
  | .error e => "Error creating reminder: " ++ e
  | .ok (inFuture, time_diff) =>
      if inFuture then
        "Reminder created: " ++ "'" ++ title ++ "'" ++ " for " ++ datetime_str ++
          "\nTime until reminder: " ++ time_diff
      else
        "Reminder created: " ++ "'" ++ title ++ "'" ++ " for " ++ datetime_str ++
          "\nNote: This time has already passed"

/-- First keyword argument not among a function's parameter names, if any:
such a call raises `TypeError` in Python. -/
def unexpectedKw (params : List String) (args : Args) : Option String :=
  (args.find? (fun a => !(params.contains a.1))).map (fun a => a.1)

/-- Render the `TypeError` raised by a call with an unexpected keyword. -/
def kwError (fname kw : String) : String :=
  fname ++ "() got an unexpected keyword argument " ++ "'" ++ kw ++ "'"

/-- Render the `TypeError` raised by a call missing a required argument. -/
def missingError (fname param : String) : String :=
  fname ++ "() missing 1 required positional argument: " ++ "'" ++ param ++ "'"

/-- `tool_functions[tool_name](**arguments)` for `get_current_time`:
parameter `timezone` defaults to `"UTC"`. -/
def call_get_current_time (env : PyEnv) (args : Args) : Except String String :=
  match unexpectedKw ["timezone"] args with
  | some k => .error (kwError "get_current_time" k)
  | none => .ok (get_current_time env ((args.lookup "timezone").getD "UTC"))

/-- Call `get_weather` with keyword arguments: `location` is required. -/
def call_get_weather (args : Args) : Except String String :=
  match unexpectedKw ["location"] args with
  | some k => .error (kwError "get_weather" k)
  | none =>
    match args.lookup "location" with
    | none => .error (missingError "get_weather" "location")
    | some location => .ok (get_weather location)

/-- Call `calculate` with keyword arguments: `expression` is required. -/
def call_calculate (env : PyEnv) (args : Args) : Except String String :=
  match unexpectedKw ["expression"] args with
  | some k => .error (kwError "calculate" k)
  | none =>
    match args.lookup "expression" with
    | none => .error (missingError "calculate" "expression")
    | some expression => .ok (calculate env.pyEval expression)

/-- Call `web_search` with keyword arguments: `query` is required. -/
def call_web_search (args : Args) : Except String String :=
  match unexpectedKw ["query"] args with
  | some k => .error (kwError "web_search" k)
  | none =>
    match args.lookup "query" with
    | none => .error (missingError "web_search" "query")
    | some query => .ok (web_search query)

/-- Call `get_session_info` with keyword arguments: `session_id` required. -/
def call_get_session_info (env : PyEnv) (st : Store) (args : Args) :
    Except String String :=
  match unexpectedKw ["session_id"] args with
  | some k => .error (kwError "get_session_info" k)
  | none =>
    match args.lookup "session_id" with
    | none => .error (missingError "get_session_info" "session_id")
    | some sid => .ok (get_session_info env st sid)

/-- Call `create_reminder` with keyword arguments.  Note the Python parameter
names are `title`, `datetime_str`, `description` (the advertised schema says
`datetime`, which this calling convention would reject). -/
def call_create_reminder (env : PyEnv) (args : Args) : Except String String :=
  match unexpectedKw ["title", "datetime_str", "description"] args with
  | some k => .error (kwError "create_reminder" k)
  | none =>
    match args.lookup "title" with
    | none => .error (missingError "create_reminder" "title")
    | some title =>
      match args.lookup "datetime_str" with
      | none => .error (missingError "create_reminder" "datetime_str")
      | some dt =>
          .ok (create_reminder env title dt ((args.lookup "description").getD ""))

/-- Call `record_user_details` with keyword arguments: `email` required,
`name` and `notes` defaulted. -/
def call_record_user_details (args : Args) : Except String String :=
  match unexpectedKw ["email", "name", "notes"] args with
  | some k => .error (kwError "record_user_details" k)
  | none =>
    match args.lookup "email" with
    | none => .error (missingError "record_user_details" "email")
    | some email =>
        .ok (record_user_details email
          ((args.lookup "name").getD "Name not provided")
          ((args.lookup "notes").getD "not provided"))

/-- Call `record_unknown_question` with keyword arguments: `question`
required. -/
def call_record_unknown_question (args : Args) : Except String String :=
  match unexpectedKw ["question"] args with
  | some k => .error (kwError "record_unknown_question" k)
  | none =>
    match args.lookup "question" with
    | none => .error (missingError "record_unknown_question" "question")
    | some q => .ok (record_unknown_question q)

/-- The keys of the `tool_functions` dict in `execute_tool` (main.py:333). -/
def tool_functions : List String :=
  ["get_current_time", "get_weather", "calculate", "web_search",
   "get_session_info", "create_reminder", "record_user_details",
   "record_unknown_question"]

/-- The dictionary lookup plus call `tool_functions[tool_name](**arguments)`:
`none` when the name is not registered, otherwise the call's outcome (a
result string, or the raised `TypeError` of a bad keyword binding). -/
def dispatch_tool (env : PyEnv) (st : Store) (tool_name : String)
    (args : Args) : Option (Except String String) :=
  if tool_name = "get_current_time" then some (call_get_current_time env args)
  else if tool_name = "get_weather" then some (call_get_weather args)
  else if tool_name = "calculate" then some (call_calculate env args)
  else if tool_name = "web_search" then some (call_web_search args)
  else if tool_name = "get_session_info" then
    some (call_get_session_info env st args)
  else if tool_name = "create_reminder" then some (call_create_reminder env args)
  else if tool_name = "record_user_details" then
    some (call_record_user_details args)
  else if tool_name = "record_unknown_question" then
    some (call_record_unknown_question args)
  else none

/-- `execute_tool` (main.py:331): dispatch by name; an unknown name yields the
`Unknown tool` string, a call that raises yields the `Error executing` string;
the boundary always returns a string. -/
def execute_tool (env : PyEnv) (st : Store) (tool_name : String)
    (arguments : Args) : String :=
  match dispatch_tool env st tool_name arguments with
  | some (.ok r) => r
  | some (.error e) => "Error executing " ++ tool_name ++ ": " ++ e
  | none => "Unknown tool: " ++ tool_name

/-! ## Orchestrator

`stream_openai_response` (main.py:458) as a function from the request inputs
and a gateway oracle to the emitted event sequence, the final store, the
message list handed to the second completion, and the log of `save_message`
calls issued. -/

/-- One tool-call request inside the first completion's assistant message:
`tool_call.id`, `tool_call.function.name`, and the serialized
`tool_call.function.arguments` string. -/
structure ToolCallReq where
  id : String
  fname : String
  args_str : String
  deriving Repr, DecidableEq

/-- The first completion's `response.choices[0].message`: optional text
content plus tool-call requests (`None` and the empty list are both falsy at
the `if assistant_message.tool_calls:` check, so both are modelled as `[]`). -/
structure AssistantMessage where
  content : Option String
  tool_calls : List ToolCallReq
  deriving Repr, DecidableEq

/-- The gateway oracle for one request: the outcome of the first
(non-streaming, tool-advertising) completion, the `delta.content` of each
chunk yielded by the second (streaming) completion, and an exception the
stream raises after those chunks, if any. -/
structure Gateway where
  complete1 : Except String AssistantMessage
  stream2 : List (Option String)
  stream2err : Option String

/-- One server-sent event as serialized at main.py:516, 551, 577 and 582;
the uniform `data: <json>\n\n` framing is not repeated per event. -/
inductive Event where
  | chunk (content : String) (timestamp : Nat)
  | tool_result (content : String) (tool_name : String) (result : String)
      (timestamp : Nat)
  | endEv (timestamp : Nat)
  | errorEv (msg : String) (timestamp : Nat)
  deriving Repr, DecidableEq

/-- One entry of the `messages` list sent to the OpenAI client: the system
prompt, a history dict (passed through with its timestamp), the current user
message, the first completion's assistant message object, or a tool-result
dict `{"tool_call_id", "role": "tool", "content"}`. -/
inductive OMsg where
  | system (content : String)
  | user (content : String)
  | hist (m : Message)
  | assistant (m : AssistantMessage)
  | tool (tool_call_id : String) (content : String)
  deriving Repr, DecidableEq

/-- One element of the `tool_results` list (main.py:508): the tool-result
message appended for the second completion. -/
structure ToolResultMsg where
  tool_call_id : String
  content : String
  deriving Repr, DecidableEq

/-- One `save_message(session_id, role, content)` call issued by the
orchestrator. -/
structure SaveCall where
  session_id : String
  role : String
  content : String
  deriving Repr, DecidableEq

/-- What one run of the `stream_openai_response` generator produces: the
event sequence in emission order, the resulting store, the message list
passed to the second completion (when that call was made), and the
`save_message` calls issued in order. -/
structure StreamResult where
  events : List Event
  store : Store
  messages2 : Option (List OMsg)
  saves : List SaveCall
  deriving Repr

/-- Python truthiness of the optional `session_id` argument: `None` and the
empty string are both falsy at every `if session_id:` check. -/
def pyTruthy : Option String → Option String
  | some s => if s = "" then none else some s
  | none => none

/-- Right-fold rendering of repeated string `+=` concatenation (string append
is associative, so this equals the left fold the Python loop performs). -/
def concatStrings : List String → String
  | [] => ""
  | s :: rest => s ++ concatStrings rest

/-- The tool-call loop (main.py:496): per call, parse the argument string —
on success invoke `execute_tool`, record the result and yield a `tool_result`
event; on a parse failure the `except` branch records the
`Error executing tool` string but yields nothing.  Returns the yielded events
and the accumulated `tool_results`, both in call order. -/
def runToolCalls (env : PyEnv) (st : Store) :
    List ToolCallReq → List Event × List ToolResultMsg
  | [] => ([], [])
  | tc :: rest =>
    let (evs, trs) := runToolCalls env st rest
    match env.json_loads tc.args_str with
    | .ok arguments =>
      let result := execute_tool env st tc.fname arguments
      (Event.tool_result ("[Tool Result: " ++ tc.fname ++ "] " ++ result)
          tc.fname result env.nowMs :: evs,
       { tool_call_id := tc.id, content := result } :: trs)
    | .error e =>
      (evs,
       { tool_call_id := tc.id
         content := "Error executing tool " ++ tc.fname ++ ": " ++ e } :: trs)

/-- The store after the initial `save_message(session_id, "user", prompt)`
(main.py:475), a no-op when the session id is falsy. -/
def userSavedStore (env : PyEnv) (st0 : Store) (prompt : String)
    (session_id : Option String) : Store :=
  match pyTruthy session_id with
  | some sid => save_message st0 sid "user" prompt env.nowMs
  | none => st0

/-- `stream_openai_response` (main.py:458).  All clock reads of the request
are modelled by the single `env.nowMs` (no claim depends on timestamp
values).  The only operations that can raise inside the generator's `try` are
the two gateway calls — every session operation and `execute_tool` catch
internally — so the `except` branch is reached exactly from `gw.complete1`
failing or the streamed iteration raising after `gw.stream2`. -/
def stream_openai_response (env : PyEnv) (gw : Gateway) (st0 : Store)
    (prompt : String) (session_id : Option String) : StreamResult :=
  let history := match pyTruthy session_id with
    | some sid => get_chat_history st0 sid
    | none => []
  let messages : List OMsg :=
    OMsg.system env.system_prompt :: (history.map OMsg.hist ++ [OMsg.user prompt])
  let st1 := userSavedStore env st0 prompt session_id
  let saves0 : List SaveCall := match pyTruthy session_id with
    | some sid => [{ session_id := sid, role := "user", content := prompt }]
    | none => []
  match gw.complete1 with
  | .error e =>
      { events := [Event.errorEv e env.nowMs], store := st1
        messages2 := none, saves := saves0 }
  | .ok assistant_message =>
    let messages := messages ++ [OMsg.assistant assistant_message]
    match assistant_message.tool_calls with
    | [] =>
      -- no tool calls: stream the answer character by character, then save it
      -- when the session id and the content are both truthy
      let text := assistant_message.content.getD ""
      let chunkEvents := text.data.map
        (fun c => Event.chunk (String.mk [c]) env.nowMs)
      match pyTruthy session_id, assistant_message.content with
      | some sid, some content =>
        if content = "" then
          { events := chunkEvents ++ [Event.endEv env.nowMs], store := st1
            messages2 := none, saves := saves0 }
        else
          { events := chunkEvents ++ [Event.endEv env.nowMs]
            store := save_message st1 sid "assistant" content env.nowMs
            messages2 := none
            saves := saves0 ++
              [{ session_id := sid, role := "assistant", content := content }] }
      | _, _ =>
          { events := chunkEvents ++ [Event.endEv env.nowMs], store := st1
            messages2 := none, saves := saves0 }
    | _ :: _ =>
      -- tool path: run the loop, make the second (streaming) completion with
      -- the augmented message list, then save the composed text
      let toolEvents := (runToolCalls env st1 assistant_message.tool_calls).1
      let tool_results := (runToolCalls env st1 assistant_message.tool_calls).2
      let messages := messages ++
        tool_results.map (fun r => OMsg.tool r.tool_call_id r.content)
      let chunkEvents := gw.stream2.filterMap
        (fun oc => oc.map (fun c => Event.chunk c env.nowMs))
      match gw.stream2err with
      | some e =>
          { events := toolEvents ++ chunkEvents ++ [Event.errorEv e env.nowMs]
            store := st1, messages2 := some messages, saves := saves0 }
      | none =>
        match pyTruthy session_id with
        | some sid =>
          -- main.py:554: first-completion content, then the raw tool results,
          -- then `response.choices[0].message.content` — the same object as
          -- `assistant_message` — again; the streamed fragments are not used
          let complete_response :=
            (assistant_message.content.getD "") ++
            (if tool_results.isEmpty then "" else
              "\n\n[Tool Results:]\n" ++
                concatStrings
                  (tool_results.map (fun r => "- " ++ r.content ++ "\n"))) ++
            (assistant_message.content.getD "")
          { events := toolEvents ++ chunkEvents ++ [Event.endEv env.nowMs]
            store := save_message st1 sid "assistant" complete_response env.nowMs
            messages2 := some messages
            saves := saves0 ++
              [{ session_id := sid, role := "assistant"
                 content := complete_response }] }
        | none =>
          { events := toolEvents ++ chunkEvents ++ [Event.endEv env.nowMs]
            store := st1, messages2 := some messages, saves := saves0 }

/-! ## Claim-side definitions

Predicates and comparison functions used to state the claims, plus concrete
fixtures used by witnesses and counterexamples. -/

/-- Terminal events of the stream protocol: `end` and `error`. -/
def Event.isTerminal : Event → Bool
  | .endEv _ => true
  | .errorEv _ _ => true
  | _ => false

/-- Recognizer for `tool_result` events. -/
def Event.isToolResult : Event → Bool
  | .tool_result _ _ _ _ => true
  | _ => false

/-- The `content` field of a `chunk` event. -/
def Event.chunkContent : Event → Option String
  | .chunk c _ => some c
  | _ => none

/-- Concatenation of the `content` fields of the `chunk` events of a stream,
in emission order. -/
def chunkConcat (events : List Event) : String :=
  concatStrings (events.filterMap Event.chunkContent)

/-- The result string the loop body records for one tool-call request: the
`execute_tool` result when the argument string parses, the
`Error executing tool` text of the `except` branch when it does not. -/
def toolResultContent (env : PyEnv) (st : Store) (tc : ToolCallReq) : String :=
  match env.json_loads tc.args_str with
  | .ok arguments => execute_tool env st tc.fname arguments
  | .error e => "Error executing tool " ++ tc.fname ++ ": " ++ e

/-- The `tool_result` events the loop emits, in call order: one per
successfully parsed call, none for a call whose argument string fails to
parse. -/
def toolEventsSpec (env : PyEnv) (st : Store) (tcs : List ToolCallReq) :
    List Event :=
  tcs.filterMap (fun tc =>
    match env.json_loads tc.args_str with
    | .ok arguments =>
        some (Event.tool_result
          ("[Tool Result: " ++ tc.fname ++ "] " ++
            execute_tool env st tc.fname arguments)
          tc.fname (execute_tool env st tc.fname arguments) env.nowMs)
    | .error _ => none)

/-- The assistant text the tool path persists (main.py:554): the first
completion's content, the raw tool results block, then the first completion's
content again — `response.choices[0].message` is the same object as
`assistant_message`, so its content is appended twice. -/
def persistedToolPathText (env : PyEnv) (st1 : Store) (am : AssistantMessage) :
    String :=
  let tool_results := am.tool_calls.map (fun tc => toolResultContent env st1 tc)
  (am.content.getD "") ++
  (if tool_results.isEmpty then "" else
    "\n\n[Tool Results:]\n" ++
      concatStrings (tool_results.map (fun c => "- " ++ c ++ "\n"))) ++
  (am.content.getD "")

/-- The allow-list the specification names for the arithmetic evaluator:
digits, the four operators, parentheses, whitespace and the decimal point. -/
def specAllowedChar (c : Char) : Bool :=
  c.isDigit || c = '+' || c = '-' || c = '*' || c = '/' || c = '(' ||
    c = ')' || c.isWhitespace || c = '.'

/-- All sessions stored hold at most 20 messages. -/
def StoreInv (st : Store) : Prop :=
  ∀ p ∈ st, p.2.messages.length ≤ 20

/-- A sequence of `save_message` calls, each with its own clock read. -/
def applySaves (st : Store) : List (String × String × String × Nat) → Store
  | [] => st
  | (sid, role, content, now) :: ops =>
      applySaves (save_message st sid role content now) ops

/-- Fixture environment: clock at 0, external parsers failing. -/
def envDemo : PyEnv :=
  { nowMs := 0
    nowFmt := "2026-01-01 00:00:00"
    fmtTs := fun _ => "2026-01-01 00:00:00"
    pyEval := fun _ => .error "eval disabled"
    parseReminder := fun _ => .error "Invalid isoformat string"
    json_loads := fun _ => .error "Expecting value: line 1 column 1 (char 0)"
    system_prompt := "sys" }

/-- Fixture environment whose `json.loads` parses every argument string to
the mapping `question -> q`. -/
def envJsonOk : PyEnv :=
  { envDemo with json_loads := fun _ => .ok [("question", "q")] }

/-- Fixture gateway: direct answer `Hi`, no tool calls. -/
def gwDirect : Gateway :=
  { complete1 := .ok { content := some "Hi", tool_calls := [] }
    stream2 := [], stream2err := none }

/-- Fixture gateway: one tool call whose argument string will fail to parse
under `envDemo`, second completion streaming the single fragment `FINAL`. -/
def gwToolJsonFail : Gateway :=
  { complete1 := .ok
      { content := some "T"
        tool_calls := [{ id := "id1", fname := "get_weather", args_str := "oops" }] }
    stream2 := [some "FINAL"], stream2err := none }

/-- Fixture gateway: one `record_unknown_question` call (arguments parse
under `envJsonOk`), second completion streaming the single fragment
`FINAL`. -/
def gwToolOk : Gateway :=
  { complete1 := .ok
      { content := some "A"
        tool_calls :=
          [{ id := "id1", fname := "record_unknown_question"
             args_str := "argjson" }] }
    stream2 := [some "FINAL"], stream2err := none }

/-- Twenty messages, for the sliding-window witness. -/
def msgs20 : List Message := List.replicate 20 { role := "user", content := "x", timestamp := 0 }

/-- A store holding one session with exactly 20 messages. -/
def stW6 : Store := [(sessionKey "s", { session_id := "s", created_at := 0, last_activity := 0, messages := msgs20 })]

/-- A store holding one empty session with distinct timestamps. -/
def stW10 : Store := [(sessionKey "s", { session_id := "s", created_at := 1, last_activity := 2, messages := [] })]

/-- The store after creating session `s1` at time 0. -/
def st1W : Store := (create_session [] "s1" 0).1

/-! ## Store lemmas -/

lemma lookup_storeSet_self (st : Store) (k : String) (v : SessionData) :
    (storeSet st k v).lookup k = some v := by
  simp [storeSet, List.lookup]

lemma mem_storeSet (st : Store) (k : String) (v : SessionData)
    (p : String × SessionData) (hp : p ∈ storeSet st k v) :
    p = (k, v) ∨ p ∈ st := by
  rcases List.mem_cons.mp hp with h | h
  · exact Or.inl h
  · exact Or.inr (List.mem_filter.mp h).1

lemma mem_of_lookup_eq_some {st : Store} {k : String} {v : SessionData}
    (h : st.lookup k = some v) : (k, v) ∈ st := by
  induction st with
  | nil => simp [List.lookup] at h
  | cons p rest ih =>
    obtain ⟨pk, pv⟩ := p
    rw [List.lookup] at h
    split at h
    · rename_i heq
      obtain rfl : pv = v := by injection h
      obtain rfl : k = pk := by simpa using heq
      exact List.mem_cons_self _ _
    · exact List.mem_cons_of_mem _ (ih h)

lemma save_message_preserves_inv (st : Store) (sid role content : String)
    (now : Nat) (hinv : StoreInv st) :
    StoreInv (save_message st sid role content now) := by
  unfold save_message
  cases h : get_session st sid with
  | none => exact hinv
  | some sd =>
    intro p hp
    rcases mem_storeSet _ _ _ p hp with rfl | hmem
    · have hsd : sd.messages.length ≤ 20 :=
        hinv _ (mem_of_lookup_eq_some h)
      simp only []
      split
      · rw [List.length_drop]
        omega
      · rename_i hle
        simp only [List.length_append, List.length_singleton] at *
        omega
    · exact hinv p hmem

/-! ## Session-store claims -/

/-- C5: `create()` followed immediately by `fetch()` of the returned id
yields a session with an empty message sequence whose `created_at` equals its
`last_activity`. -/
theorem create_then_fetch_empty (st : Store) (sid : String) (now : Nat) :
    ∃ sd, get_session (create_session st sid now).1
            (create_session st sid now).2 = some sd ∧
      sd.messages = [] ∧ sd.created_at = sd.last_activity := by
  refine ⟨{ session_id := sid, created_at := now, last_activity := now,
            messages := [] }, ?_, rfl, rfl⟩
  simpa [create_session, get_session] using
    lookup_storeSet_self st (sessionKey sid) _

/-- C7: `save_message` on a session id absent from the store raises nothing,
creates nothing, and returns the store unchanged — an explicit no-op. -/
theorem save_message_absent_is_noop (st : Store) (sid role content : String)
    (now : Nat) (h : get_session st sid = none) :
    save_message st sid role content now = st := by
  simp [save_message, h]

/-- Witness for C7: saving into the empty store is the identity. -/
theorem save_message_absent_is_noop_witness :
    save_message [] "s" "user" "hi" 0 = [] :=
  save_message_absent_is_noop [] "s" "user" "hi" 0 rfl

lemma get_session_save_message (st : Store) (sid role content : String)
    (now : Nat) (sd : SessionData) (h : get_session st sid = some sd) :
    get_session (save_message st sid role content now) sid =
      some { sd with
             last_activity := now,
             messages :=
               if (sd.messages ++ [(⟨role, content, now⟩ : Message)]).length > 20
               then (sd.messages ++ [(⟨role, content, now⟩ : Message)]).drop
                      ((sd.messages ++ [(⟨role, content, now⟩ : Message)]).length - 20)
               else sd.messages ++ [(⟨role, content, now⟩ : Message)] } := by
  simp only [save_message, h]
  exact lookup_storeSet_self st (sessionKey sid) _

/-- C10: `save_message` on a stored session leaves `session_id` and
`created_at` unchanged; it only rewrites the message list (append plus
truncation to 20) and refreshes `last_activity`. -/
theorem save_message_frame (st : Store) (sid role content : String)
    (now : Nat) (sd : SessionData) (h : get_session st sid = some sd) :
    ∃ sd', get_session (save_message st sid role content now) sid = some sd' ∧
      sd'.session_id = sd.session_id ∧ sd'.created_at = sd.created_at ∧
      sd'.last_activity = now ∧
      sd'.messages =
        (if (sd.messages ++ [(⟨role, content, now⟩ : Message)]).length > 20
         then (sd.messages ++ [(⟨role, content, now⟩ : Message)]).drop
                ((sd.messages ++ [(⟨role, content, now⟩ : Message)]).length - 20)
         else sd.messages ++ [(⟨role, content, now⟩ : Message)]) :=
  ⟨_, get_session_save_message st sid role content now sd h, rfl, rfl, rfl, rfl⟩

/-- Witness for C10: appending to a stored empty session with
`created_at = 1`, `last_activity = 2` keeps both identity fields. -/
theorem save_message_frame_witness :
    ∃ sd', get_session (save_message stW10 "s" "assistant" "y" 5) "s" = some sd' ∧
      sd'.session_id = "s" ∧ sd'.created_at = 1 ∧ sd'.last_activity = 5 ∧
      sd'.messages =
        (if (([] : List Message) ++ [(⟨"assistant", "y", 5⟩ : Message)]).length > 20
         then (([] : List Message) ++ [(⟨"assistant", "y", 5⟩ : Message)]).drop
                ((([] : List Message) ++ [(⟨"assistant", "y", 5⟩ : Message)]).length - 20)
         else ([] : List Message) ++ [(⟨"assistant", "y", 5⟩ : Message)]) :=
  save_message_frame stW10 "s" "assistant" "y" 5
    { session_id := "s", created_at := 1, last_activity := 2, messages := [] } rfl

/-- C6: under any sequence of `save_message` calls the stored message count
never exceeds 20, and appending to a session that already holds 20 messages
drops exactly the oldest one, keeping the remaining 20 in order with the new
message last. -/
theorem session_window_cap (st : Store)
    (ops : List (String × String × String × Nat)) (hinv : StoreInv st) :
    StoreInv (applySaves st ops) ∧
    (∀ sid sd role content now, get_session st sid = some sd →
      sd.messages.length = 20 →
      ∃ sd', get_session (save_message st sid role content now) sid = some sd' ∧
        sd'.messages = sd.messages.drop 1 ++
          [(⟨role, content, now⟩ : Message)]) := by
  constructor
  · induction ops generalizing st with
    | nil => exact hinv
    | cons op ops ih =>
      obtain ⟨sid, role, content, now⟩ := op
      exact ih _ (save_message_preserves_inv st sid role content now hinv)
  · intro sid sd role content now h hlen
    refine ⟨_, get_session_save_message st sid role content now sd h, ?_⟩
    have h21 : (sd.messages ++ [(⟨role, content, now⟩ : Message)]).length = 21 := by
      simp [hlen]
    simp only [h21]
    rw [if_pos (by omega)]
    rw [List.drop_append_eq_append_drop]
    simp [hlen]

/-- Witness for C6: a store holding one 20-message session satisfies the
invariant, and one more save drops exactly the oldest message. -/
theorem session_window_cap_witness :
    StoreInv (applySaves stW6 []) ∧
    ∃ sd', get_session (save_message stW6 "s" "assistant" "y" 5) "s" = some sd' ∧
      sd'.messages = msgs20.drop 1 ++ [(⟨"assistant", "y", 5⟩ : Message)] := by
  have h := session_window_cap stW6 []
    (by unfold StoreInv; decide)
  exact ⟨h.1, h.2 "s"
    { session_id := "s", created_at := 0, last_activity := 0, messages := msgs20 }
    "assistant" "y" 5 rfl (by decide)⟩

/-! ## Tool registry claims -/

lemma dispatch_tool_eq_none (env : PyEnv) (st : Store) (name : String)
    (args : Args) (h : name ∉ tool_functions) :
    dispatch_tool env st name args = none := by
  simp only [tool_functions, List.mem_cons, List.not_mem_nil, or_false,
    not_or] at h
  obtain ⟨h1, h2, h3, h4, h5, h6, h7, h8⟩ := h
  simp [dispatch_tool, h1, h2, h3, h4, h5, h6, h7, h8]

/-- C9: `execute_tool` fails closed — an unknown name yields the
`Unknown tool` string rather than an exception, a registered call that raises
yields the `Error executing` string rather than propagating, and a successful
call yields the tool's result; the boundary always returns a string. -/
theorem execute_tool_fails_closed (env : PyEnv) (st : Store) (name : String)
    (args : Args) :
    (name ∉ tool_functions →
      execute_tool env st name args = "Unknown tool: " ++ name) ∧
    (∀ e, dispatch_tool env st name args = some (Except.error e) →
      execute_tool env st name args = "Error executing " ++ name ++ ": " ++ e) ∧
    (∀ r, dispatch_tool env st name args = some (Except.ok r) →
      execute_tool env st name args = r) := by
  refine ⟨fun h => ?_, fun e he => ?_, fun r hr => ?_⟩
  · simp [execute_tool, dispatch_tool_eq_none env st name args h]
  · simp [execute_tool, he]
  · simp [execute_tool, hr]

/-- Witness for C9: the literal unknown-tool result for
`nonexistent_tool`, and the contained `TypeError` of a
`record_user_details` call missing its required `email` argument. -/
theorem execute_tool_fails_closed_witness :
    execute_tool envDemo [] "nonexistent_tool" [] =
      "Unknown tool: nonexistent_tool" ∧
    execute_tool envDemo [] "record_user_details" [] =
      "Error executing record_user_details: " ++
        missingError "record_user_details" "email" :=
  ⟨(execute_tool_fails_closed envDemo [] "nonexistent_tool" []).1 (by decide),
   (execute_tool_fails_closed envDemo [] "record_user_details" []).2.1 _ rfl⟩

/-- Counterexample for C2: the filter in `calculate` keeps every alphanumeric
character, so the letter `a` — outside the claimed allow-list of digits,
operators, parentheses, whitespace and the decimal point — survives into the
expression handed to `eval` (here probed by an evaluator echoing its
input). -/
theorem calculate_allowlist_counterexample :
    'a' ∈ (calc_filter "a+1").data ∧ specAllowedChar 'a' = false ∧
    calculate (fun t => Except.error t) "a+1" = "Error calculating a+1: a+1" := by
  refine ⟨by decide, by decide, ?_⟩
  rfl

/-- C2 amended: `calculate` strips every character that is neither
alphanumeric (Python `isalnum`, so letters pass — broader than the claimed
digit-only list) nor one of `+ - * / . ( )` and space, and consults the
evaluator only on the stripped expression: the result depends on the
evaluator only through its value at `calc_filter s`, and every character of
that string satisfies the code's allow-list. -/
theorem calculate_filter_boundary (f g : String → Except String String)
    (s : String) (h : f (calc_filter s) = g (calc_filter s)) :
    calculate f s = calculate g s ∧
    ∀ c ∈ (calc_filter s).data, calc_allowed c = true := by
  constructor
  · simp only [calculate, h]
  · intro c hc
    exact (List.mem_filter.mp hc).2

/-- Witness for C2: two evaluators that agree on the stripped expression
`3+1` (the `#` is removed) give the same `calculate` result. -/
theorem calculate_filter_boundary_witness :
    calculate (fun _ => Except.ok "4") "3+1#" =
      calculate (fun t => if t = "3+1" then Except.ok "4" else Except.error "no") "3+1#" ∧
    ∀ c ∈ (calc_filter "3+1#").data, calc_allowed c = true :=
  calculate_filter_boundary _ _ "3+1#" rfl

/-! ## Orchestrator lemmas -/

lemma stringMk_data (s : String) : String.mk s.data = s := by
  obtain ⟨l⟩ := s
  rfl

lemma concatStrings_singletons (l : List Char) :
    concatStrings (l.map fun c => String.mk [c]) = String.mk l := by
  induction l with
  | nil => rfl
  | cons c cs ih =>
    simp only [List.map_cons, concatStrings, ih]
    rfl

lemma runToolCalls_eq (env : PyEnv) (st : Store) (tcs : List ToolCallReq) :
    runToolCalls env st tcs =
      (toolEventsSpec env st tcs,
       tcs.map (fun tc =>
         { tool_call_id := tc.id, content := toolResultContent env st tc })) := by
  induction tcs with
  | nil => rfl
  | cons tc rest ih =>
    simp only [runToolCalls, ih, toolEventsSpec, List.filterMap_cons,
      List.map_cons, toolResultContent]
    cases h : env.json_loads tc.args_str with
    | ok arguments => simp
    | error e => simp

lemma toolEventsSpec_all_tool_results (env : PyEnv) (st : Store)
    (tcs : List ToolCallReq) :
    ∀ e ∈ toolEventsSpec env st tcs,
      e.isToolResult = true ∧ e.isTerminal = false := by
  intro e he
  obtain ⟨tc, _, hf⟩ := List.mem_filterMap.mp he
  rcases h : env.json_loads tc.args_str with arguments | err <;> rw [h] at hf
  · simp at hf
  · obtain rfl : _ = e := by simpa using hf
    exact ⟨rfl, rfl⟩

lemma streamChunkEvents_all_chunks (l : List (Option String)) (ts : Nat) :
    ∀ e ∈ l.filterMap (fun oc => oc.map (fun c => Event.chunk c ts)),
      e.isToolResult = false ∧ e.isTerminal = false := by
  intro e he
  obtain ⟨oc, _, hf⟩ := List.mem_filterMap.mp he
  cases oc with
  | none => simp at hf
  | some c =>
    obtain rfl : Event.chunk c ts = e := by simpa using hf
    exact ⟨rfl, rfl⟩

lemma charChunkEvents_all_chunks (l : List Char) (ts : Nat) :
    ∀ e ∈ l.map (fun c => Event.chunk (String.mk [c]) ts),
      e.isToolResult = false ∧ e.isTerminal = false := by
  intro e he
  obtain ⟨c, _, rfl⟩ := List.mem_map.mp he
  exact ⟨rfl, rfl⟩

lemma stream_events_first_completion_error (env : PyEnv) (gw : Gateway)
    (st0 : Store) (prompt : String) (session_id : Option String) (e : String)
    (h : gw.complete1 = .error e) :
    (stream_openai_response env gw st0 prompt session_id).events =
      [Event.errorEv e env.nowMs] := by
  simp only [stream_openai_response, h]

lemma stream_events_no_tool (env : PyEnv) (gw : Gateway) (st0 : Store)
    (prompt : String) (session_id : Option String) (am : AssistantMessage)
    (h1 : gw.complete1 = .ok am) (h2 : am.tool_calls = []) :
    (stream_openai_response env gw st0 prompt session_id).events =
      (am.content.getD "").data.map
        (fun c => Event.chunk (String.mk [c]) env.nowMs) ++
      [Event.endEv env.nowMs] := by
  simp only [stream_openai_response, h1, h2]
  rcases hp : pyTruthy session_id with _ | sid <;>
    rcases hc : am.content with _ | content <;> simp [hc]
  split <;> rfl

lemma stream_events_tool (env : PyEnv) (gw : Gateway) (st0 : Store)
    (prompt : String) (session_id : Option String) (am : AssistantMessage)
    (h1 : gw.complete1 = .ok am) (h2 : am.tool_calls ≠ []) :
    ∃ t, (stream_openai_response env gw st0 prompt session_id).events =
        (runToolCalls env (userSavedStore env st0 prompt session_id)
          am.tool_calls).1 ++
        gw.stream2.filterMap
          (fun oc => oc.map (fun c => Event.chunk c env.nowMs)) ++
        [t] ∧
      t.isTerminal = true := by
  obtain ⟨tc, rest, hcalls⟩ : ∃ tc rest, am.tool_calls = tc :: rest := by
    cases h : am.tool_calls with
    | nil => exact absurd h h2
    | cons tc rest => exact ⟨tc, rest, rfl⟩
  simp only [stream_openai_response, h1, hcalls, userSavedStore]
  rcases hs : gw.stream2err with _ | e
  · rcases hp : pyTruthy session_id with _ | sid <;>
      exact ⟨Event.endEv env.nowMs, by simp [List.append_assoc], rfl⟩
  · exact ⟨Event.errorEv e env.nowMs, by simp [List.append_assoc], rfl⟩

/-- C4: every run of the orchestrator emits exactly one terminal event —
an `end` or an `error`, never both — and it is the last event emitted. -/
theorem stream_exactly_one_terminal (env : PyEnv) (gw : Gateway) (st0 : Store)
    (prompt : String) (session_id : Option String) :
    ∃ es t, (stream_openai_response env gw st0 prompt session_id).events =
        es ++ [t] ∧ t.isTerminal = true ∧
      es.filter Event.isTerminal = [] := by
  rcases h : gw.complete1 with e | am
  · exact ⟨[], Event.errorEv e env.nowMs,
      stream_events_first_completion_error env gw st0 prompt session_id e h,
      rfl, rfl⟩
  · rcases hcalls : am.tool_calls with _ | ⟨tc, rest⟩
    · refine ⟨(am.content.getD "").data.map
          (fun c => Event.chunk (String.mk [c]) env.nowMs),
        Event.endEv env.nowMs,
        stream_events_no_tool env gw st0 prompt session_id am h hcalls,
        rfl, ?_⟩
      rw [List.filter_eq_nil_iff]
      intro e he
      simp [(charChunkEvents_all_chunks _ _ e he).2]
    · obtain ⟨t, hev, hterm⟩ := stream_events_tool env gw st0 prompt
        session_id am h (by simp [hcalls])
      refine ⟨_ ++ _, t, by rw [hev, List.append_assoc], hterm, ?_⟩
      rw [List.filter_append, List.filter_eq_nil_iff.mpr, List.filter_eq_nil_iff.mpr,
        List.append_nil]
      · intro e he
        simp [(streamChunkEvents_all_chunks _ _ e he).2]
      · intro e he
        rw [runToolCalls_eq] at he
        simp [(toolEventsSpec_all_tool_results _ _ _ e he).2]

/-- C8: in a no-tool-call response, concatenating the `content` fields of the
`chunk` events, in order, reconstructs exactly the full assistant answer
text. -/
theorem no_tool_chunk_concat (env : PyEnv) (gw : Gateway) (st0 : Store)
    (prompt : String) (session_id : Option String) (am : AssistantMessage)
    (h1 : gw.complete1 = .ok am) (h2 : am.tool_calls = []) :
    chunkConcat (stream_openai_response env gw st0 prompt session_id).events =
      am.content.getD "" := by
  rw [chunkConcat, stream_events_no_tool env gw st0 prompt session_id am h1 h2,
    List.filterMap_append]
  have h3 : ((am.content.getD "").data.map
      (fun c => Event.chunk (String.mk [c]) env.nowMs)).filterMap
        Event.chunkContent =
      (am.content.getD "").data.map (fun c => String.mk [c]) := by
    rw [List.filterMap_map]
    exact List.filterMap_eq_map _ ▸ rfl
  rw [h3]
  simp only [List.filterMap_cons, Event.chunkContent, List.filterMap_nil,
    List.append_nil]
  rw [concatStrings_singletons, stringMk_data]

/-- Witness for C8: a direct answer `Hi` is streamed as chunks whose
concatenation is `Hi`. -/
theorem no_tool_chunk_concat_witness :
    chunkConcat (stream_openai_response envDemo gwDirect [] "p" none).events =
      "Hi" :=
  no_tool_chunk_concat envDemo gwDirect [] "p" none
    { content := some "Hi", tool_calls := [] } rfl rfl

lemma stream_messages2_tool (env : PyEnv) (gw : Gateway) (st0 : Store)
    (prompt : String) (session_id : Option String) (am : AssistantMessage)
    (h1 : gw.complete1 = .ok am) (h2 : am.tool_calls ≠ []) :
    ∃ base, (stream_openai_response env gw st0 prompt session_id).messages2 =
      some (base ++
        (runToolCalls env (userSavedStore env st0 prompt session_id)
          am.tool_calls).2.map
            (fun r => OMsg.tool r.tool_call_id r.content)) := by
  obtain ⟨tc, rest, hcalls⟩ : ∃ tc rest, am.tool_calls = tc :: rest := by
    cases h : am.tool_calls with
    | nil => exact absurd h h2
    | cons tc rest => exact ⟨tc, rest, rfl⟩
  simp only [stream_openai_response, h1, hcalls, userSavedStore]
  rcases hs : gw.stream2err with _ | e
  · rcases hp : pyTruthy session_id with _ | sid <;> exact ⟨_, rfl⟩
  · exact ⟨_, rfl⟩

lemma stream_saves_tool (env : PyEnv) (gw : Gateway) (st0 : Store)
    (prompt sid : String) (am : AssistantMessage)
    (h1 : gw.complete1 = .ok am) (h2 : am.tool_calls ≠ [])
    (h3 : gw.stream2err = none) (h4 : sid ≠ "") :
    (stream_openai_response env gw st0 prompt (some sid)).saves =
      [{ session_id := sid, role := "user", content := prompt },
       { session_id := sid, role := "assistant", content :=
         (am.content.getD "") ++
         (if ((runToolCalls env (save_message st0 sid "user" prompt env.nowMs)
                am.tool_calls).2).isEmpty then "" else
           "\n\n[Tool Results:]\n" ++
             concatStrings
               (((runToolCalls env
                   (save_message st0 sid "user" prompt env.nowMs)
                   am.tool_calls).2).map
                 (fun r => "- " ++ r.content ++ "\n"))) ++
         (am.content.getD "") }] := by
  obtain ⟨tc, rest, hcalls⟩ : ∃ tc rest, am.tool_calls = tc :: rest := by
    cases h : am.tool_calls with
    | nil => exact absurd h h2
    | cons tc rest => exact ⟨tc, rest, rfl⟩
  have hp : pyTruthy (some sid) = some sid := by simp [pyTruthy, h4]
  simp only [stream_openai_response, h1, hcalls, h3, hp, userSavedStore]
  rfl

/-- Counterexample for C3: with one tool-call request whose argument string
fails to parse, the orchestrator emits no `tool_result` event at all for that
call (the `except` branch only records the error), even though the error
result is appended as a tool-role message for the second completion. -/
theorem tool_event_parse_failure_counterexample :
    (stream_openai_response envDemo gwToolJsonFail [] "p" none).events =
      [Event.chunk "FINAL" 0, Event.endEv 0] ∧
    (stream_openai_response envDemo gwToolJsonFail [] "p" none).events.filter
      Event.isToolResult = [] ∧
    (stream_openai_response envDemo gwToolJsonFail [] "p" none).messages2 =
      some [OMsg.system "sys", OMsg.user "p",
        OMsg.assistant
          { content := some "T"
            tool_calls := [{ id := "id1", fname := "get_weather", args_str := "oops" }] },
        OMsg.tool "id1"
          "Error executing tool get_weather: Expecting value: line 1 column 1 (char 0)"] := by
  decide

/-- C3 amended: on the tool path the emitted events begin with exactly the
`tool_result` events of the successfully parsed calls, in gateway order and
before any chunk or terminal event, and every call — parse failure included —
contributes its `{toolCallId, result}` pair as a tool-role message appended,
in order, to the message list passed to the second completion; a call whose
argument string fails to parse yields no `tool_result` event. -/
theorem tool_loop_events_and_messages (env : PyEnv) (gw : Gateway)
    (st0 : Store) (prompt : String) (session_id : Option String)
    (am : AssistantMessage)
    (h1 : gw.complete1 = .ok am) (h2 : am.tool_calls ≠ []) :
    ∃ rest,
      (stream_openai_response env gw st0 prompt session_id).events =
        toolEventsSpec env (userSavedStore env st0 prompt session_id)
          am.tool_calls ++ rest ∧
      rest.filter Event.isToolResult = [] ∧
      ∃ base,
        (stream_openai_response env gw st0 prompt session_id).messages2 =
          some (base ++ am.tool_calls.map (fun tc =>
            OMsg.tool tc.id
              (toolResultContent env
                (userSavedStore env st0 prompt session_id) tc))) := by
  obtain ⟨t, hev, hterm⟩ :=
    stream_events_tool env gw st0 prompt session_id am h1 h2
  refine ⟨gw.stream2.filterMap
      (fun oc => oc.map (fun c => Event.chunk c env.nowMs)) ++ [t],
    ?_, ?_, ?_⟩
  · rw [hev, runToolCalls_eq, List.append_assoc]
  · rw [List.filter_append]
    have hc : (gw.stream2.filterMap
        (fun oc => oc.map (fun c => Event.chunk c env.nowMs))).filter
          Event.isToolResult = [] := by
      rw [List.filter_eq_nil_iff]
      intro e he
      simp [(streamChunkEvents_all_chunks _ _ e he).1]
    have ht : Event.isToolResult t = false := by
      cases t <;> simp_all [Event.isTerminal, Event.isToolResult]
    rw [hc]
    simp [List.filter, ht]
  · obtain ⟨base, hmsg⟩ :=
      stream_messages2_tool env gw st0 prompt session_id am h1 h2
    refine ⟨base, ?_⟩
    rw [hmsg, runToolCalls_eq]
    simp [List.map_map, Function.comp]

/-- Witness for C3 amended: a parsed `record_unknown_question` call. -/
theorem tool_loop_events_and_messages_witness :
    ∃ rest,
      (stream_openai_response envJsonOk gwToolOk [] "p" none).events =
        toolEventsSpec envJsonOk (userSavedStore envJsonOk [] "p" none)
          [{ id := "id1", fname := "record_unknown_question",
             args_str := "argjson" }] ++ rest ∧
      rest.filter Event.isToolResult = [] ∧
      ∃ base,
        (stream_openai_response envJsonOk gwToolOk [] "p" none).messages2 =
          some (base ++
            [{ id := "id1", fname := "record_unknown_question",
               args_str := "argjson" }].map (fun tc =>
              OMsg.tool tc.id
                (toolResultContent envJsonOk
                  (userSavedStore envJsonOk [] "p" none) tc))) :=
  tool_loop_events_and_messages envJsonOk gwToolOk [] "p" none
    { content := some "A"
      tool_calls := [{ id := "id1", fname := "record_unknown_question",
                       args_str := "argjson" }] }
    rfl (by decide)

/-- Counterexample for C1: on the tool path with a live session, the single
persisted assistant turn carries the first completion's content twice around
a block of raw tool results — `Question recorded` is saved verbatim — and not
the concatenation `FINAL` of the fragments streamed by the second
completion. -/
theorem persisted_text_counterexample :
    (stream_openai_response envJsonOk gwToolOk st1W "p" (some "s1")).saves =
      [{ session_id := "s1", role := "user", content := "p" },
       { session_id := "s1", role := "assistant",
         content := "A\n\n[Tool Results:]\n- Question recorded\nA" }] ∧
    concatStrings (gwToolOk.stream2.filterMap id) = "FINAL" ∧
    ("A\n\n[Tool Results:]\n- Question recorded\nA" : String) ≠ "FINAL" := by
  decide

/-- C1 amended: on the tool path with a (truthy) session id and no streaming
failure, the complete list of `save_message` calls is the user turn followed
by exactly one assistant turn — so no tool-role turn is stored and the
streamed fragments of the second completion are not persisted anywhere — and
the assistant turn's text is the first completion's content, a
`[Tool Results:]` block listing each raw tool result, and the first
completion's content again; the save is unconditional: the text is never
empty on this path, so the empty-skip never applies. -/
theorem tool_path_persisted_text (env : PyEnv) (gw : Gateway) (st0 : Store)
    (prompt sid : String) (am : AssistantMessage)
    (h1 : gw.complete1 = .ok am) (h2 : am.tool_calls ≠ [])
    (h3 : gw.stream2err = none) (h4 : sid ≠ "") :
    (stream_openai_response env gw st0 prompt (some sid)).saves =
      [{ session_id := sid, role := "user", content := prompt },
       { session_id := sid, role := "assistant",
         content := persistedToolPathText env
           (save_message st0 sid "user" prompt env.nowMs) am }] ∧
    persistedToolPathText env (save_message st0 sid "user" prompt env.nowMs)
      am ≠ "" := by
  obtain ⟨tc, rest, hcalls⟩ : ∃ tc rest, am.tool_calls = tc :: rest := by
    cases h : am.tool_calls with
    | nil => exact absurd h h2
    | cons tc rest => exact ⟨tc, rest, rfl⟩
  constructor
  · rw [stream_saves_tool env gw st0 prompt sid am h1 h2 h3 h4]
    rw [runToolCalls_eq]
    simp [persistedToolPathText, hcalls, List.map_map, Function.comp_def]
  · intro heq
    have hl : (persistedToolPathText env
        (save_message st0 sid "user" prompt env.nowMs) am).length = 0 := by
      rw [heq]
      rfl
    rw [persistedToolPathText, hcalls] at hl
    simp only [List.map_cons, List.isEmpty_cons, Bool.false_eq_true,
      if_false, String.length_append] at hl
    have h18 : ("\n\n[Tool Results:]\n" : String).length = 18 := by decide
    omega

/-- Witness for C1 amended: the concrete tool-path run of the
counterexample's shape, via the theorem. -/
theorem tool_path_persisted_text_witness :
    (stream_openai_response envJsonOk gwToolOk [] "p" (some "s1")).saves =
      [{ session_id := "s1", role := "user", content := "p" },
       { session_id := "s1", role := "assistant",
         content := persistedToolPathText envJsonOk
           (save_message [] "s1" "user" "p" 0)
           { content := some "A"
             tool_calls := [{ id := "id1", fname := "record_unknown_question",
                              args_str := "argjson" }] } }] ∧
    persistedToolPathText envJsonOk (save_message [] "s1" "user" "p" 0)
      { content := some "A"
        tool_calls := [{ id := "id1", fname := "record_unknown_question",
                         args_str := "argjson" }] } ≠ "" :=
  tool_path_persisted_text envJsonOk gwToolOk [] "p" "s1"
    { content := some "A"
      tool_calls := [{ id := "id1", fname := "record_unknown_question",
                       args_str := "argjson" }] }
    rfl (by decide) rfl (by decide)

end PortfolioBackend
